import Mathlib

/-!
Shallow embedding of the token-sale open instruction
(src/programs/token_sale/src/processor/open_sale.rs) together with the
collaborator contracts the spec assigns to the pieces that are not part of
that file (the TokenBase record layout, the address derivation, the
allocation gateway and the host's transaction atomicity).

Machine words are modelled as Nat; account data is a list of byte values.
-/

set_option maxRecDepth 100000

namespace TokenSale

/-- Account addresses (32-byte public keys) are modelled as natural numbers. -/
abbrev Pubkey := Nat

/-- Account data: a list of byte values. -/
abbrev Bytes := List Nat

/-- Little-endian interpretation of a byte list as a natural number. -/
def leBytesToNat (bs : Bytes) : Nat :=
  bs.foldr (fun b acc => b + 256 * acc) 0

/-- The sub-list of length len starting at offset off. -/
def slice (bs : Bytes) (off len : Nat) : Bytes :=
  (bs.drop off).take len

/-- Identity of the system program that owns not-yet-allocated accounts. -/
def systemProgramId : Pubkey := 0

/-- Metadata and content of one ledger account as seen by the instruction:
address, balance, data bytes, owning program, executable flag and whether a
valid signature for it accompanies the transaction. -/
structure AccountInfo where
  key : Pubkey
  lamports : Nat
  data : Bytes
  owner : Pubkey
  executable : Bool
  is_signer : Bool
  deriving DecidableEq

/-- Modelled from the spec: the Sale Configuration Record ("TokenBase", crate
state module, not under src/), field order as in the persisted layout:
mint, vault, sale_authority, whitelist_root, price, default_purchase_limit,
bump. -/
structure TokenBase where
  mint : Pubkey
  vault : Pubkey
  sale_authority : Pubkey
  whitelist_root : Bytes
  price : Nat
  default_purchase_limit : Nat
  bump : Nat
  deriving DecidableEq

namespace TokenBase

/-- Modelled from the spec: the record's fixed on-disk size, the sum of the
field encodings 32 + 32 + 32 + 32 + 8 + 8 + 1. -/
def LEN : Nat := 145

/-- The all-zero record: every key 0, zero whitelist root, zero price, zero
limit, zero bump. This is what zero-filled bytes decode to. -/
def zero : TokenBase :=
  { mint := 0
    vault := 0
    sale_authority := 0
    whitelist_root := List.replicate 32 0
    price := 0
    default_purchase_limit := 0
    bump := 0 }

/-- Modelled from the spec: the sentinel "uninitialized" state of the record
(crate state module, not under src/): the freshly allocated, all-zero record. -/
def is_uninitialized (tb : TokenBase) : Bool :=
  decide (tb = zero)

/-- Borsh deserialization of a TokenBase from account bytes: consumes exactly
LEN bytes, reading the fields in layout order (keys and integers
little-endian, the whitelist root as 32 raw bytes). -/
def try_from_slice (data : Bytes) : Option TokenBase :=
  if data.length = LEN then
    some
      { mint := leBytesToNat (slice data 0 32)
        vault := leBytesToNat (slice data 32 32)
        sale_authority := leBytesToNat (slice data 64 32)
        whitelist_root := slice data 96 32
        price := leBytesToNat (slice data 128 8)
        default_purchase_limit := leBytesToNat (slice data 136 8)
        bump := leBytesToNat (slice data 144 1) }
  else none

end TokenBase

/-- Error kinds surfaced by the open instruction, covering the program's own
typed errors, the generic runtime errors it reuses, and the failures of the
external collaborators (rent lookup, allocation gateway, token metadata
parse). -/
inductive Err where
  | InvalidAccountOwner
  | InvalidAccountDataLength
  | AccountAlreadyInitialized
  | UnexpectedPDASeeds
  | MustBeNonExecutable
  | SaleAuthorityNotSigner
  | AllocationFailed
  | DerivationExhausted
  | RentUnavailable
  | InvalidAccountData
  | UninitializedAccount
  | BorshDeserializeFailed
  deriving DecidableEq

/-- Parsed token metadata of the external token-standard library (the Mint
state of the spl token program, an external dependency). -/
structure Mint where
  mint_authority : Option Pubkey
  supply : Nat
  decimals : Nat
  is_initialized : Bool
  freeze_authority : Option Pubkey
  deriving DecidableEq

namespace Mint

/-- Fixed byte length of the external token metadata layout. -/
def LEN : Nat := 82

end Mint

/-- Optional-key decoding of the external token library: a 4-byte tag that
must be 0 (absent) or 1 (present, followed by a 32-byte key); any other tag
is invalid data. -/
def unpackCOptionKey (bs : Bytes) : Option (Option Pubkey) :=
  match slice bs 0 4 with
  | [0, 0, 0, 0] => some none
  | [1, 0, 0, 0] => some (some (leBytesToNat (slice bs 4 32)))
  | _ => none

namespace Mint

/-- Structural parse of the token metadata per the external library: length
must be exactly LEN; layout is authority tag+key at 0, supply at 36,
decimals at 44, the initialized flag byte (0 or 1) at 45, freeze authority
tag+key at 46. Anything else is invalid account data. -/
def unpack_unchecked (data : Bytes) : Except Err Mint :=
  if data.length = LEN then
    match unpackCOptionKey (slice data 0 36), slice data 45 1,
          unpackCOptionKey (slice data 46 36) with
    | some auth, [0], some freeze =>
      Except.ok
        { mint_authority := auth
          supply := leBytesToNat (slice data 36 8)
          decimals := leBytesToNat (slice data 44 1)
          is_initialized := false
          freeze_authority := freeze }
    | some auth, [1], some freeze =>
      Except.ok
        { mint_authority := auth
          supply := leBytesToNat (slice data 36 8)
          decimals := leBytesToNat (slice data 44 1)
          is_initialized := true
          freeze_authority := freeze }
    | _, _, _ => Except.error Err.InvalidAccountData
  else Except.error Err.InvalidAccountData

/-- The external library's checked unpack: the structural parse followed by
the mandatory initialized-flag test, which fails with the runtime's
uninitialized-account error. This test runs even though the processor's own
explicit initialization check is commented out in the source. -/
def unpack (data : Bytes) : Except Err Mint :=
  match unpack_unchecked data with
  | Except.error e => Except.error e
  | Except.ok m =>
    if m.is_initialized then Except.ok m else Except.error Err.UninitializedAccount

end Mint

/-- Environment of the address derivation: a candidate-address function over
(program, authority, mint, counter) and the predicate telling which candidate
addresses are valid (have no private key). Both are abstract: no claim
depends on the concrete hash. -/
structure DeriveEnv where
  hash : Pubkey → Pubkey → Pubkey → Nat → Pubkey
  offCurve : Pubkey → Bool

/-- Decreasing search for a counter value accepted by the validity predicate,
starting from the given bound and stopping at the first hit. -/
def findValidCounter (valid : Nat → Bool) : Nat → Option Nat
  | 0 => if valid 0 then some 0 else none
  | n + 1 => if valid (n + 1) then some (n + 1) else findValidCounter valid n

/-- Modelled from the spec: Address Derivation (find_token_base_pda of the
crate state module, not under src/) — a pure function searching counters
downward from the maximum value 255 for the first candidate address with no
private key, returning the (address, counter) pair, or none when the whole
counter space is exhausted. -/
def find_token_base_pda (env : DeriveEnv) (program_id sale_authority mint : Pubkey) :
    Option (Pubkey × Nat) :=
  match findValidCounter (fun c => env.offCurve (env.hash program_id sale_authority mint c)) 255 with
  | some c => some (env.hash program_id sale_authority mint c, c)
  | none => none

/-- The accounts handed to the open instruction, plus the rent collaborator
as an already-parsed minimum-balance function (none when the rent sysvar
account cannot be read). -/
structure OpenSaleAccounts where
  token_base : AccountInfo
  mint : AccountInfo
  vault : AccountInfo
  sale_authority : AccountInfo
  rent_sysvar : Option (Nat → Nat)

/-- Modelled from the spec: whether an account already exists at an address
from the allocation gateway's point of view — it carries funds, holds data,
or is already owned by some program. -/
def accountExists (a : AccountInfo) : Bool :=
  decide (a.lamports ≠ 0 ∨ a.data ≠ [] ∨ a.owner ≠ systemProgramId)

/-- Modelled from the spec: the successful effect of the Allocation Gateway —
the record account receives the minimum balance, a zero-filled buffer of the
record size, the program as owner and a non-executable flag, while the
funding sale authority is debited by that balance. -/
def allocate (program_id : Pubkey) (minBal : Nat) (ctx : OpenSaleAccounts) :
    OpenSaleAccounts :=
  { ctx with
    token_base :=
      { key := ctx.token_base.key
        lamports := minBal
        data := List.replicate TokenBase.LEN 0
        owner := program_id
        executable := false
        is_signer := ctx.token_base.is_signer }
    sale_authority :=
      { ctx.sale_authority with lamports := ctx.sale_authority.lamports - minBal } }

/-- Embedding of process_open_sale (open_sale.rs lines 31-172): read the rent
collaborator, derive the record address, invoke the allocation gateway, run
the validator sequence of the source in source order (owner, length,
deserialization, uninitialized, derivation match, token metadata parse,
vault non-executable, authority non-executable, authority signer), and on
all-pass assemble the new field values. The source assigns those values to
the deserialized local copy of the record and returns without serializing it
back into the account data, so the final state carries no record bytes
beyond the zero fill of the allocation. -/
def processOpenSale (env : DeriveEnv) (program_id : Pubkey)
    (price purchase_limit : Nat) (whitelist_root : Bytes)
    (ctx : OpenSaleAccounts) : Option Err × OpenSaleAccounts :=
  match ctx.rent_sysvar with
  | none => (some Err.RentUnavailable, ctx)
  | some minimum_balance =>
    match find_token_base_pda env program_id ctx.sale_authority.key ctx.mint.key with
    | none => (some Err.DerivationExhausted, ctx)
    | some (token_base_pda, token_base_bump) =>
      if accountExists ctx.token_base then (some Err.AllocationFailed, ctx)
      else if ctx.sale_authority.lamports < minimum_balance TokenBase.LEN then
        (some Err.AllocationFailed, ctx)
      else
        let A := allocate program_id (minimum_balance TokenBase.LEN) ctx
        if A.token_base.owner = program_id then
          if A.token_base.data.length = TokenBase.LEN then
            match TokenBase.try_from_slice A.token_base.data with
            | none => (some Err.BorshDeserializeFailed, A)
            | some token_base =>
              if token_base.is_uninitialized then
                if A.token_base.key = token_base_pda then
                  match Mint.unpack A.mint.data with
                  | Except.error e => (some e, A)
                  | Except.ok _mint_state =>
                    if A.vault.executable then (some Err.MustBeNonExecutable, A)
                    else if A.sale_authority.executable then
                      (some Err.MustBeNonExecutable, A)
                    else if A.sale_authority.is_signer then
                      let _written : TokenBase :=
                        { mint := A.mint.key
                          vault := A.vault.key
                          sale_authority := A.sale_authority.key
                          whitelist_root := whitelist_root
                          price := price
                          default_purchase_limit := purchase_limit
                          bump := token_base_bump }
                      (none, A)
                    else (some Err.SaleAuthorityNotSigner, A)
                else (some Err.UnexpectedPDASeeds, A)
              else (some Err.AccountAlreadyInitialized, A)
          else (some Err.InvalidAccountDataLength, A)
        else (some Err.InvalidAccountOwner, A)

/-- Modelled from the spec: the host runtime's transaction atomicity — a
failed invocation rolls every attempted account mutation back, so the
observable post-state of an erroring call is the pre-state. -/
def runOpenSale (env : DeriveEnv) (program_id : Pubkey)
    (price purchase_limit : Nat) (whitelist_root : Bytes)
    (ctx : OpenSaleAccounts) : Option Err × OpenSaleAccounts :=
  let res := processOpenSale env program_id price purchase_limit whitelist_root ctx
  match res.1 with
  | some e => (some e, ctx)
  | none => res

/-- Validator sequence exactly as the spec lists it for the open operation
(owner, length, uninitialized, derivation match, vault non-executable,
authority non-executable, signer), returning the first failure, used to
compare the processor against the spec's fixed-order description. -/
def firstFailing (program_id token_base_pda : Pubkey) (ctx : OpenSaleAccounts) :
    Option Err :=
  if ctx.token_base.owner = program_id then
    if ctx.token_base.data.length = TokenBase.LEN then
      match TokenBase.try_from_slice ctx.token_base.data with
      | none => some Err.BorshDeserializeFailed
      | some tb =>
        if tb.is_uninitialized then
          if ctx.token_base.key = token_base_pda then
            if ctx.vault.executable then some Err.MustBeNonExecutable
            else if ctx.sale_authority.executable then some Err.MustBeNonExecutable
            else if ctx.sale_authority.is_signer then none
            else some Err.SaleAuthorityNotSigner
          else some Err.UnexpectedPDASeeds
        else some Err.AccountAlreadyInitialized
    else some Err.InvalidAccountDataLength
  else some Err.InvalidAccountOwner

/-- Derivation environment whose candidate addresses are all valid and all
equal to 42: every bump is acceptable, so the search stops at 255. -/
def env0 : DeriveEnv :=
  { hash := fun _ _ _ _ => 42
    offCurve := fun _ => true }

/-- Derivation environment whose candidate address equals the counter itself,
with every candidate valid: it makes the whole counter range valid. -/
def env1 : DeriveEnv :=
  { hash := fun _ _ _ c => c
    offCurve := fun _ => true }

/-- Byte image of an initialized token metadata record: present authority
tag with key 0, zero supply, zero decimals, initialized flag 1, absent
freeze authority. -/
def mintDataInit : Bytes :=
  [1, 0, 0, 0] ++ List.replicate 32 0 ++ List.replicate 8 0 ++ [0] ++ [1] ++
    [0, 0, 0, 0] ++ List.replicate 32 0

/-- Byte image of an uninitialized token metadata record: all zero, which
parses structurally with the initialized flag clear. -/
def mintDataUninit : Bytes := List.replicate 82 0

/-- A record account that does not exist yet, sitting at the derived address
of env0. -/
def tokenBaseFresh : AccountInfo :=
  { key := 42, lamports := 0, data := [], owner := 0, executable := false,
    is_signer := false }

/-- The asset account, holding initialized token metadata whose authority (0)
differs from the sale authority key (9). -/
def mintAcct : AccountInfo :=
  { key := 5, lamports := 1, data := mintDataInit, owner := 3,
    executable := false, is_signer := false }

/-- A non-executable vault account. -/
def vaultAcct : AccountInfo :=
  { key := 6, lamports := 1, data := [], owner := 3, executable := false,
    is_signer := false }

/-- A funded, non-executable sale authority that signed the transaction. -/
def authAcct : AccountInfo :=
  { key := 9, lamports := 1000000, data := [], owner := 0, executable := false,
    is_signer := true }

/-- Rent collaborator charging a flat minimum balance of 100. -/
def rent0 : Option (Nat → Nat) := some (fun _ => 100)

/-- A fully well-formed open call context: fresh record account at the
derived address, initialized asset, non-executable vault, funded signer
authority, rent available. -/
def ctx1 : OpenSaleAccounts :=
  { token_base := tokenBaseFresh, mint := mintAcct, vault := vaultAcct,
    sale_authority := authAcct, rent_sysvar := rent0 }

/-- Parsed form of mintDataInit. -/
def mintStInit : Mint :=
  { mint_authority := some 0, supply := 0, decimals := 0, is_initialized := true,
    freeze_authority := none }

/-- A well-formed context except that the sale authority did not sign. -/
def ctxNoSigner : OpenSaleAccounts :=
  { ctx1 with sale_authority := { authAcct with is_signer := false } }

/-- A well-formed context except that the record account sits at address 99
instead of the derived 42, and does not exist yet. -/
def ctxWrongKey : OpenSaleAccounts :=
  { ctx1 with token_base := { tokenBaseFresh with key := 99 } }

/-- A record account at the non-derived address 99 that already exists:
funded, program-owned, correctly sized, zero-filled (so uninitialized). -/
def tokenBaseExisting : AccountInfo :=
  { key := 99, lamports := 1, data := List.replicate 145 0, owner := 7,
    executable := false, is_signer := false }

/-- A well-formed context except that the record account of tokenBaseExisting
already exists at the non-derived address. -/
def ctxExisting : OpenSaleAccounts := { ctx1 with token_base := tokenBaseExisting }

/-- Byte image of an initialized record: all fields zero except price = 1. -/
def recordDataPrice1 : Bytes :=
  List.replicate 128 0 ++ (1 :: List.replicate 7 0) ++ List.replicate 8 0 ++ [0]

/-- A context for a second open attempt: the record account at the derived
address already exists and holds an initialized record (price 1). -/
def ctxReopen : OpenSaleAccounts :=
  { ctx1 with token_base :=
    { key := 42, lamports := 100, data := recordDataPrice1, owner := 7,
      executable := false, is_signer := false } }

/-- A well-formed context except that the vault account is executable. -/
def ctxVaultExec : OpenSaleAccounts :=
  { ctx1 with vault := { vaultAcct with executable := true } }

/-- A context with two defects at once: unparseable asset metadata (empty
data) and an executable vault. -/
def ctxBadMintExecVault : OpenSaleAccounts :=
  { ctx1 with
    mint := { mintAcct with data := [] }
    vault := { vaultAcct with executable := true } }

/-- A well-formed context except that the asset metadata parses with the
initialized flag clear. -/
def ctxUninitMint : OpenSaleAccounts :=
  { ctx1 with mint := { mintAcct with data := mintDataUninit } }

/-- A well-formed context except that the rent collaborator is unavailable. -/
def ctxNoRent : OpenSaleAccounts := { ctx1 with rent_sysvar := none }

/-! Helper lemmas shared by the claim theorems. -/

lemma try_from_slice_replicate_zero :
    TokenBase.try_from_slice (List.replicate TokenBase.LEN 0) = some TokenBase.zero := by
  decide

lemma zero_is_uninitialized : TokenBase.zero.is_uninitialized = true := by decide

lemma try_from_slice_length (data : Bytes) (tb : TokenBase)
    (h : TokenBase.try_from_slice data = some tb) : data.length = TokenBase.LEN := by
  unfold TokenBase.try_from_slice at h
  split at h
  · assumption
  · exact absurd h (Option.noConfusion)

lemma unpack_unchecked_error (data : Bytes) (e : Err)
    (h : Mint.unpack_unchecked data = Except.error e) : e = Err.InvalidAccountData := by
  unfold Mint.unpack_unchecked at h
  split at h
  · split at h
    · exact absurd h (by intro hc; cases hc)
    · exact absurd h (by intro hc; cases hc)
    · injection h with h; exact h.symm
  · injection h with h; exact h.symm

lemma unpack_error (data : Bytes) (e : Err) (h : Mint.unpack data = Except.error e) :
    e = Err.InvalidAccountData ∨ e = Err.UninitializedAccount := by
  unfold Mint.unpack at h
  cases hu : Mint.unpack_unchecked data with
  | error e1 =>
    rw [hu] at h
    injection h with h
    exact Or.inl (h ▸ unpack_unchecked_error data e1 hu)
  | ok m =>
    rw [hu] at h
    have h2 : (if m.is_initialized = true then (Except.ok m : Except Err Mint)
        else Except.error Err.UninitializedAccount) = Except.error e := h
    by_cases hi : m.is_initialized = true
    · rw [if_pos hi] at h2
      cases h2
    · rw [if_neg hi] at h2
      injection h2 with h2
      exact Or.inr h2.symm

lemma findValidCounter_spec (valid : Nat → Bool) :
    ∀ n c, findValidCounter valid n = some c →
      valid c = true ∧ c ≤ n ∧ ∀ k, c < k → k ≤ n → valid k = false := by
  intro n
  induction n with
  | zero =>
    intro c h
    simp only [findValidCounter] at h
    split at h
    · injection h with h
      subst h
      exact ⟨by assumption, Nat.le_refl 0,
        fun k hk hk0 => absurd (Nat.lt_of_lt_of_le hk hk0) (Nat.lt_irrefl _)⟩
    · exact absurd h (Option.noConfusion)
  | succ n ih =>
    intro c h
    simp only [findValidCounter] at h
    split at h
    · injection h with h
      subst h
      exact ⟨by assumption, Nat.le_refl _,
        fun k hk hk0 => absurd (Nat.lt_of_lt_of_le hk hk0) (Nat.lt_irrefl _)⟩
    · obtain ⟨h1, h2, h3⟩ := ih c h
      refine ⟨h1, Nat.le_succ_of_le h2, fun k hk hk0 => ?_⟩
      rcases Nat.lt_or_ge k (n + 1) with hlt | hge
      · exact h3 k hk (Nat.lt_succ_iff.mp hlt)
      · have hkn : k = n + 1 := Nat.le_antisymm hk0 hge
        subst hkn
        have hv : ¬ valid (n + 1) = true := by assumption
        exact Bool.eq_false_iff.mpr hv

lemma processOpenSale_eq_firstFailing
    (env : DeriveEnv) (pid : Pubkey) (p l : Nat) (r : Bytes)
    (ctx : OpenSaleAccounts) (minB : Nat → Nat) (pda : Pubkey) (bump : Nat) (st : Mint)
    (hrent : ctx.rent_sysvar = some minB)
    (hfind : find_token_base_pda env pid ctx.sale_authority.key ctx.mint.key =
      some (pda, bump))
    (hex : accountExists ctx.token_base = false)
    (hfund : minB TokenBase.LEN ≤ ctx.sale_authority.lamports)
    (hmint : Mint.unpack ctx.mint.data = Except.ok st) :
    processOpenSale env pid p l r ctx =
      (firstFailing pid pda (allocate pid (minB TokenBase.LEN) ctx),
        allocate pid (minB TokenBase.LEN) ctx) := by
  have hnotlt : ¬ ctx.sale_authority.lamports < minB TokenBase.LEN :=
    Nat.not_lt.mpr hfund
  simp only [processOpenSale, firstFailing, allocate, hrent, hfind, hex,
    Bool.false_eq_true, if_false, hnotlt, List.length_replicate,
    try_from_slice_replicate_zero, zero_is_uninitialized, hmint, if_true,
    eq_self_iff_true]
  by_cases hkey : ctx.token_base.key = pda <;>
    by_cases hv : ctx.vault.executable = true <;>
      by_cases ha : ctx.sale_authority.executable = true <;>
        by_cases hs : ctx.sale_authority.is_signer = true <;>
          simp [hkey, hv, ha, hs]

lemma processOpenSale_isSome_of_not_signer
    (env : DeriveEnv) (pid : Pubkey) (p l : Nat) (r : Bytes) (ctx : OpenSaleAccounts)
    (h : ctx.sale_authority.is_signer = false) :
    ((processOpenSale env pid p l r ctx).1).isSome = true := by
  simp only [processOpenSale]
  repeat' split
  all_goals simp_all [allocate]

lemma runOpenSale_of_error (env : DeriveEnv) (pid : Pubkey) (p l : Nat) (r : Bytes)
    (ctx : OpenSaleAccounts) (e : Err)
    (h : (processOpenSale env pid p l r ctx).1 = some e) :
    runOpenSale env pid p l r ctx = (some e, ctx) := by
  simp only [runOpenSale, h]

lemma processOpenSale_error_cases
    (env : DeriveEnv) (pid : Pubkey) (p l : Nat) (r : Bytes)
    (ctx : OpenSaleAccounts) (minB : Nat → Nat) (pda : Pubkey) (bump : Nat)
    (hrent : ctx.rent_sysvar = some minB)
    (hfind : find_token_base_pda env pid ctx.sale_authority.key ctx.mint.key =
      some (pda, bump))
    (hex : accountExists ctx.token_base = false)
    (hfund : minB TokenBase.LEN ≤ ctx.sale_authority.lamports) :
    ∀ e, (processOpenSale env pid p l r ctx).1 = some e →
      e = Err.UnexpectedPDASeeds ∨ e = Err.InvalidAccountData ∨
      e = Err.UninitializedAccount ∨ e = Err.MustBeNonExecutable ∨
      e = Err.SaleAuthorityNotSigner := by
  have hnotlt : ¬ ctx.sale_authority.lamports < minB TokenBase.LEN :=
    Nat.not_lt.mpr hfund
  intro e he
  simp only [processOpenSale, allocate, hrent, hfind, hex, Bool.false_eq_true,
    if_false, hnotlt, List.length_replicate, try_from_slice_replicate_zero,
    zero_is_uninitialized, if_true, eq_self_iff_true] at he
  split at he
  · split at he
    · next e1 heq =>
      simp at he
      rcases unpack_error _ _ heq with h | h
      · exact Or.inr (Or.inl (he ▸ h))
      · exact Or.inr (Or.inr (Or.inl (he ▸ h)))
    · repeat' split at he
      all_goals simp_all
  · simp_all

/-! Claim theorems. -/

/-- C1 (code bug witness): on the end-to-end input of the spec — funded signer
authority, initialized asset, non-executable vault, fresh record account at
the derived address, price 1000, purchase limit 5, zero whitelist root — the
open call returns success, yet the record account's stored bytes are still
the zero fill of the allocation and decode to the all-zero record, whose
price is 0 and whose mint is 0, not the supplied 1000 and the asset key 5:
the source writes the fields only into a local deserialized copy and never
serializes it back. -/
theorem open_sale_success_leaves_record_bytes_zero :
    (runOpenSale env0 7 1000 5 (List.replicate 32 0) ctx1).1 = none ∧
    (runOpenSale env0 7 1000 5 (List.replicate 32 0) ctx1).2.token_base.data =
      List.replicate 145 0 ∧
    TokenBase.try_from_slice
        (runOpenSale env0 7 1000 5 (List.replicate 32 0) ctx1).2.token_base.data =
      some TokenBase.zero ∧
    TokenBase.zero.price = 0 ∧ TokenBase.zero.mint = 0 ∧ ctx1.mint.key = 5 := by
  refine ⟨by decide, by decide, by decide, by decide, by decide, by decide⟩

/-- C2: whenever the sale-authority account is not a transaction signer the
open operation fails, the observable post-state equals the pre-state (no
account is created or mutated), and if every other step and validator passes
the reported error is exactly SaleAuthorityNotSigner. -/
theorem open_sale_missing_signer
    (env : DeriveEnv) (pid : Pubkey) (p l : Nat) (r : Bytes) (ctx : OpenSaleAccounts)
    (h : ctx.sale_authority.is_signer = false) :
    ((processOpenSale env pid p l r ctx).1).isSome = true ∧
    (runOpenSale env pid p l r ctx).2 = ctx ∧
    (∀ minB pda bump st,
      ctx.rent_sysvar = some minB →
      find_token_base_pda env pid ctx.sale_authority.key ctx.mint.key =
        some (pda, bump) →
      accountExists ctx.token_base = false →
      minB TokenBase.LEN ≤ ctx.sale_authority.lamports →
      ctx.token_base.key = pda →
      Mint.unpack ctx.mint.data = Except.ok st →
      ctx.vault.executable = false →
      ctx.sale_authority.executable = false →
      (processOpenSale env pid p l r ctx).1 = some Err.SaleAuthorityNotSigner) := by
  have h1 := processOpenSale_isSome_of_not_signer env pid p l r ctx h
  refine ⟨h1, ?_, ?_⟩
  · obtain ⟨e, he⟩ := Option.isSome_iff_exists.mp h1
    rw [runOpenSale_of_error env pid p l r ctx e he]
  · intro minB pda bump st hrent hfind hex hfund hkey hmintok hv ha
    rw [processOpenSale_eq_firstFailing env pid p l r ctx minB pda bump st hrent hfind
      hex hfund hmintok]
    simp [firstFailing, allocate, try_from_slice_replicate_zero, zero_is_uninitialized,
      hkey, hv, ha, h]

/-- Witness for C2 at the concrete context whose only defect is the missing
signature: the call fails with SaleAuthorityNotSigner and the state is
unchanged. -/
theorem open_sale_missing_signer_witness :
    ((processOpenSale env0 7 0 0 [] ctxNoSigner).1).isSome = true ∧
    (runOpenSale env0 7 0 0 [] ctxNoSigner).2 = ctxNoSigner ∧
    (processOpenSale env0 7 0 0 [] ctxNoSigner).1 = some Err.SaleAuthorityNotSigner := by
  have h := open_sale_missing_signer env0 7 0 0 [] ctxNoSigner (by decide)
  exact ⟨h.1, h.2.1,
    h.2.2 (fun _ => 100) 42 255 mintStInit (by rfl) (by decide) (by decide) (by decide)
      (by decide) (by rfl) (by decide) (by decide)⟩

/-- C3 (counterexample to the claim as stated): a record account at the
non-derived address 99 (derived is 42) that already exists but is otherwise
uninitialized and correctly sized makes the open call fail at the allocation
step with AllocationFailed, not with UnexpectedPDASeeds. -/
theorem open_sale_nonderived_existing_account_allocation_fails :
    ctxExisting.token_base.key = 99 ∧
    find_token_base_pda env0 7 ctxExisting.sale_authority.key ctxExisting.mint.key =
      some (42, 255) ∧
    (99 : Nat) ≠ 42 ∧
    ctxExisting.token_base.data.length = TokenBase.LEN ∧
    TokenBase.try_from_slice ctxExisting.token_base.data = some TokenBase.zero ∧
    TokenBase.zero.is_uninitialized = true ∧
    (processOpenSale env0 7 0 0 [] ctxExisting).1 = some Err.AllocationFailed ∧
    Err.AllocationFailed ≠ Err.UnexpectedPDASeeds := by
  refine ⟨by decide, by decide, by decide, by decide, by decide, by decide, by decide,
    by decide⟩

/-- C3 (amended): when the supplied record account does not yet exist and the
authority can fund it, so the allocation step succeeds, an address differing
from the derived one is rejected with UnexpectedPDASeeds. -/
theorem open_sale_nonderived_address_rejected
    (env : DeriveEnv) (pid : Pubkey) (p l : Nat) (r : Bytes)
    (ctx : OpenSaleAccounts) (minB : Nat → Nat) (pda : Pubkey) (bump : Nat)
    (hrent : ctx.rent_sysvar = some minB)
    (hfind : find_token_base_pda env pid ctx.sale_authority.key ctx.mint.key =
      some (pda, bump))
    (hex : accountExists ctx.token_base = false)
    (hfund : minB TokenBase.LEN ≤ ctx.sale_authority.lamports)
    (hkey : ctx.token_base.key ≠ pda) :
    (processOpenSale env pid p l r ctx).1 = some Err.UnexpectedPDASeeds := by
  have hnotlt : ¬ ctx.sale_authority.lamports < minB TokenBase.LEN :=
    Nat.not_lt.mpr hfund
  simp only [processOpenSale, allocate, hrent, hfind, hex, Bool.false_eq_true,
    if_false, hnotlt, List.length_replicate, try_from_slice_replicate_zero,
    zero_is_uninitialized, if_true, eq_self_iff_true]
  simp [hkey]

/-- Witness for the amended C3 at the concrete context whose record account
is fresh but sits at address 99 instead of the derived 42. -/
theorem open_sale_nonderived_address_rejected_witness :
    (processOpenSale env0 7 0 0 [] ctxWrongKey).1 = some Err.UnexpectedPDASeeds :=
  open_sale_nonderived_address_rejected env0 7 0 0 [] ctxWrongKey (fun _ => 100) 42 255
    (by rfl) (by decide) (by decide) (by decide) (by decide)

/-- C4: a second open attempt against a record account that already holds an
initialized record at the derived address fails with AllocationFailed or
AlreadyInitialized (here the allocation collision is what fires) and the
observable state, the original record's bytes included, is unchanged. -/
theorem open_sale_second_open_fails
    (env : DeriveEnv) (pid : Pubkey) (p l : Nat) (r : Bytes)
    (ctx : OpenSaleAccounts) (minB : Nat → Nat) (pda : Pubkey) (bump : Nat)
    (tb : TokenBase)
    (hrent : ctx.rent_sysvar = some minB)
    (hfind : find_token_base_pda env pid ctx.sale_authority.key ctx.mint.key =
      some (pda, bump))
    (hkey : ctx.token_base.key = pda)
    (htb : TokenBase.try_from_slice ctx.token_base.data = some tb)
    (hinit : tb.is_uninitialized = false) :
    ((processOpenSale env pid p l r ctx).1 = some Err.AllocationFailed ∨
      (processOpenSale env pid p l r ctx).1 = some Err.AccountAlreadyInitialized) ∧
    (runOpenSale env pid p l r ctx).2 = ctx := by
  have hlen := try_from_slice_length _ _ htb
  have hne : ctx.token_base.data ≠ [] := by
    intro hnil
    rw [hnil] at hlen
    exact absurd hlen (by decide)
  have hex : accountExists ctx.token_base = true := by
    simp only [accountExists, decide_eq_true_eq]
    exact Or.inr (Or.inl hne)
  have hres : (processOpenSale env pid p l r ctx).1 = some Err.AllocationFailed := by
    simp only [processOpenSale, hrent, hfind, hex, if_true]
  exact ⟨Or.inl hres, by rw [runOpenSale_of_error env pid p l r ctx _ hres]⟩

/-- Witness for C4 at the concrete reopen context: the record at the derived
address holds an initialized record (price 1), the second attempt fails with
AllocationFailed and the state is unchanged. -/
theorem open_sale_second_open_fails_witness :
    ((processOpenSale env0 7 0 0 [] ctxReopen).1 = some Err.AllocationFailed ∨
      (processOpenSale env0 7 0 0 [] ctxReopen).1 = some Err.AccountAlreadyInitialized) ∧
    (runOpenSale env0 7 0 0 [] ctxReopen).2 = ctxReopen :=
  open_sale_second_open_fails env0 7 0 0 [] ctxReopen (fun _ => 100) 42 255
    { mint := 0, vault := 0, sale_authority := 0, whitelist_root := List.replicate 32 0,
      price := 1, default_purchase_limit := 0, bump := 0 }
    (by rfl) (by decide) (by decide) (by decide) (by decide)

/-- C5 (counterexample to the claim as stated): with an executable vault and
unparseable asset metadata, the first failing validator of the spec's list is
the vault non-executable check, but the operation reports the asset-parse
error InvalidAccountData, because the metadata parse sits between the
derivation check and the vault check and is not one of the listed
validators. -/
theorem open_sale_error_not_first_failing_validator :
    (processOpenSale env0 7 0 0 [] ctxBadMintExecVault).1 =
      some Err.InvalidAccountData ∧
    firstFailing 7 42 (allocate 7 100 ctxBadMintExecVault) =
      some Err.MustBeNonExecutable ∧
    Err.InvalidAccountData ≠ Err.MustBeNonExecutable := by
  refine ⟨by decide, by decide, by decide⟩

/-- C5 (amended): provided the non-validator steps succeed — rent lookup,
derivation, allocation, and the asset metadata parse — the open operation
returns exactly the result of running the spec's validator list in its fixed
order on the post-allocation accounts: the first failing validator determines
the error, and all-pass yields success. -/
theorem open_sale_validator_order
    (env : DeriveEnv) (pid : Pubkey) (p l : Nat) (r : Bytes)
    (ctx : OpenSaleAccounts) (minB : Nat → Nat) (pda : Pubkey) (bump : Nat) (st : Mint)
    (hrent : ctx.rent_sysvar = some minB)
    (hfind : find_token_base_pda env pid ctx.sale_authority.key ctx.mint.key =
      some (pda, bump))
    (hex : accountExists ctx.token_base = false)
    (hfund : minB TokenBase.LEN ≤ ctx.sale_authority.lamports)
    (hmint : Mint.unpack ctx.mint.data = Except.ok st) :
    (processOpenSale env pid p l r ctx).1 =
      firstFailing pid pda (allocate pid (minB TokenBase.LEN) ctx) := by
  rw [processOpenSale_eq_firstFailing env pid p l r ctx minB pda bump st hrent hfind
    hex hfund hmint]

/-- Witness for the amended C5 at the concrete context whose only defect is
an executable vault: the processor's result equals the validator list's
first failure, MustBeNonExecutable. -/
theorem open_sale_validator_order_witness :
    (processOpenSale env0 7 0 0 [] ctxVaultExec).1 =
      firstFailing 7 42 (allocate 7 ((fun _ => 100) TokenBase.LEN) ctxVaultExec) ∧
    firstFailing 7 42 (allocate 7 ((fun _ => 100) TokenBase.LEN) ctxVaultExec) =
      some Err.MustBeNonExecutable := by
  refine ⟨open_sale_validator_order env0 7 0 0 [] ctxVaultExec (fun _ => 100) 42 255
    mintStInit (by rfl) (by decide) (by decide) (by decide) (by rfl), by decide⟩

/-- C6 (counterexample to the claim as stated): in a derivation environment
where every candidate address is valid, the search returns counter 255 even
though counter 0 is also valid, so the returned counter is not the smallest
valid value. -/
theorem find_token_base_pda_counter_not_smallest :
    find_token_base_pda env1 0 0 0 = some (255, 255) ∧
    env1.offCurve (env1.hash 0 0 0 0) = true ∧
    (0 : Nat) < 255 := by
  refine ⟨by decide, by decide, by decide⟩

/-- C6 (amended): Address Derivation is a pure function of its inputs whose
result, when some, consists of the candidate address at the returned counter
together with the largest counter in the range up to 255 whose candidate
address is valid — the first hit of the decreasing search from the maximum. -/
theorem find_token_base_pda_greatest_counter
    (env : DeriveEnv) (pid a m addr : Pubkey) (c : Nat)
    (h : find_token_base_pda env pid a m = some (addr, c)) :
    addr = env.hash pid a m c ∧
    env.offCurve (env.hash pid a m c) = true ∧
    c ≤ 255 ∧
    ∀ k, c < k → k ≤ 255 → env.offCurve (env.hash pid a m k) = false := by
  unfold find_token_base_pda at h
  cases hf : findValidCounter (fun k => env.offCurve (env.hash pid a m k)) 255 with
  | none =>
    rw [hf] at h
    cases h
  | some c0 =>
    rw [hf] at h
    injection h with h
    obtain ⟨ha, hc⟩ := Prod.mk.inj h
    subst hc
    obtain ⟨h1, h2, h3⟩ := findValidCounter_spec _ 255 c0 hf
    exact ⟨ha.symm, h1, h2, h3⟩

/-- Witness for the amended C6 in the all-valid environment: the result is
the candidate address at counter 255, the counter is valid and maximal. -/
theorem find_token_base_pda_greatest_counter_witness :
    find_token_base_pda env1 0 0 0 = some (255, 255) ∧
    (255 : Pubkey) = env1.hash 0 0 0 255 ∧
    env1.offCurve (env1.hash 0 0 0 255) = true ∧
    (255 : Nat) ≤ 255 := by
  have h := find_token_base_pda_greatest_counter env1 0 0 0 255 255 (by decide)
  exact ⟨by decide, h.1, h.2.1, h.2.2.1⟩

/-- C7 (counterexample to the claim as stated): the only difference between
the two contexts is the asset metadata's initialized flag, and the
uninitialized one makes the open call fail with UninitializedAccount (from
the metadata parse) while the initialized one succeeds — so the operation
does fail on account of the asset's metadata being uninitialized. -/
theorem open_sale_uninitialized_mint_fails :
    (processOpenSale env0 7 0 0 [] ctxUninitMint).1 =
      some Err.UninitializedAccount ∧
    (processOpenSale env0 7 0 0 [] ctx1).1 = none := by
  refine ⟨by decide, by decide⟩

/-- C7 (amended): the open operation never fails on account of the asset's
administrative authority differing from the sale authority — with everything
else valid and the metadata parsed as initialized, the call succeeds no
matter what the parsed mint authority is, in particular when it differs from
the sale authority; the asset-initialization check, however, is effectively
re-introduced by the metadata parse. -/
theorem open_sale_ignores_mint_authority
    (env : DeriveEnv) (pid : Pubkey) (p l : Nat) (r : Bytes)
    (ctx : OpenSaleAccounts) (minB : Nat → Nat) (pda : Pubkey) (bump : Nat) (st : Mint)
    (hrent : ctx.rent_sysvar = some minB)
    (hfind : find_token_base_pda env pid ctx.sale_authority.key ctx.mint.key =
      some (pda, bump))
    (hex : accountExists ctx.token_base = false)
    (hfund : minB TokenBase.LEN ≤ ctx.sale_authority.lamports)
    (hkey : ctx.token_base.key = pda)
    (hmint : Mint.unpack ctx.mint.data = Except.ok st)
    (hmm : st.mint_authority ≠ some ctx.sale_authority.key)
    (hv : ctx.vault.executable = false)
    (ha : ctx.sale_authority.executable = false)
    (hs : ctx.sale_authority.is_signer = true) :
    (processOpenSale env pid p l r ctx).1 = none := by
  rw [processOpenSale_eq_firstFailing env pid p l r ctx minB pda bump st hrent hfind
    hex hfund hmint]
  simp [firstFailing, allocate, try_from_slice_replicate_zero, zero_is_uninitialized,
    hkey, hv, ha, hs]

/-- Witness for the amended C7 at the concrete context whose asset authority
(0) differs from the sale authority key (9): the call still succeeds. -/
theorem open_sale_ignores_mint_authority_witness :
    mintStInit.mint_authority = some 0 ∧
    ctx1.sale_authority.key = 9 ∧
    (processOpenSale env0 7 1000 5 (List.replicate 32 0) ctx1).1 = none := by
  refine ⟨by decide, by decide,
    open_sale_ignores_mint_authority env0 7 1000 5 (List.replicate 32 0) ctx1
      (fun _ => 100) 42 255 mintStInit (by rfl) (by decide) (by decide) (by decide)
      (by decide) (by rfl) (by decide) (by decide) (by decide) (by decide)⟩

/-- C8: whenever the processor reports an error, the observable run of the
open operation surfaces that error and leaves every account exactly as it
was — the host's transaction atomicity discards all attempted mutations,
the allocation included. -/
theorem run_open_sale_atomic_on_error
    (env : DeriveEnv) (pid : Pubkey) (p l : Nat) (r : Bytes)
    (ctx : OpenSaleAccounts) (e : Err)
    (h : (processOpenSale env pid p l r ctx).1 = some e) :
    (runOpenSale env pid p l r ctx).1 = some e ∧
    (runOpenSale env pid p l r ctx).2 = ctx := by
  rw [runOpenSale_of_error env pid p l r ctx e h]
  exact ⟨rfl, rfl⟩

/-- Witness for C8 at the concrete context whose rent collaborator is
unavailable: the error surfaces and the state is untouched. -/
theorem run_open_sale_atomic_on_error_witness :
    (runOpenSale env0 7 0 0 [] ctxNoRent).1 = some Err.RentUnavailable ∧
    (runOpenSale env0 7 0 0 [] ctxNoRent).2 = ctxNoRent :=
  run_open_sale_atomic_on_error env0 7 0 0 [] ctxNoRent Err.RentUnavailable (by rfl)

/-- C9: once the rent lookup, the derivation and the allocation succeed, the
owner, length and uninitialized error branches are unreachable: the freshly
created account is owned by the program, has exactly the record's fixed
length, and its zero-filled bytes decode to the sentinel uninitialized
record. -/
theorem open_sale_alloc_implies_record_checks_pass
    (env : DeriveEnv) (pid : Pubkey) (p l : Nat) (r : Bytes)
    (ctx : OpenSaleAccounts) (minB : Nat → Nat) (pda : Pubkey) (bump : Nat)
    (hrent : ctx.rent_sysvar = some minB)
    (hfind : find_token_base_pda env pid ctx.sale_authority.key ctx.mint.key =
      some (pda, bump))
    (hex : accountExists ctx.token_base = false)
    (hfund : minB TokenBase.LEN ≤ ctx.sale_authority.lamports) :
    (processOpenSale env pid p l r ctx).1 ≠ some Err.InvalidAccountOwner ∧
    (processOpenSale env pid p l r ctx).1 ≠ some Err.InvalidAccountDataLength ∧
    (processOpenSale env pid p l r ctx).1 ≠ some Err.AccountAlreadyInitialized ∧
    (allocate pid (minB TokenBase.LEN) ctx).token_base.owner = pid ∧
    (allocate pid (minB TokenBase.LEN) ctx).token_base.data.length = TokenBase.LEN ∧
    TokenBase.try_from_slice (allocate pid (minB TokenBase.LEN) ctx).token_base.data =
      some TokenBase.zero ∧
    TokenBase.zero.is_uninitialized = true := by
  have hcases := processOpenSale_error_cases env pid p l r ctx minB pda bump hrent
    hfind hex hfund
  refine ⟨?_, ?_, ?_, by simp [allocate], by simp [allocate],
    by simp [allocate, try_from_slice_replicate_zero], zero_is_uninitialized⟩
  all_goals intro hcontra
  · rcases hcases _ hcontra with h | h | h | h | h <;> simp_all
  · rcases hcases _ hcontra with h | h | h | h | h <;> simp_all
  · rcases hcases _ hcontra with h | h | h | h | h <;> simp_all

/-- Witness for C9 at the concrete well-formed context: the call succeeds (so
none of the three errors is reported) and the freshly allocated account has
the program owner, the fixed length and the sentinel content. -/
theorem open_sale_alloc_implies_record_checks_pass_witness :
    (processOpenSale env0 7 0 0 [] ctx1).1 ≠ some Err.InvalidAccountOwner ∧
    (processOpenSale env0 7 0 0 [] ctx1).1 ≠ some Err.InvalidAccountDataLength ∧
    (processOpenSale env0 7 0 0 [] ctx1).1 ≠ some Err.AccountAlreadyInitialized ∧
    (allocate 7 ((fun _ => 100) TokenBase.LEN) ctx1).token_base.owner = 7 ∧
    (allocate 7 ((fun _ => 100) TokenBase.LEN) ctx1).token_base.data.length =
      TokenBase.LEN ∧
    TokenBase.try_from_slice
        (allocate 7 ((fun _ => 100) TokenBase.LEN) ctx1).token_base.data =
      some TokenBase.zero ∧
    TokenBase.zero.is_uninitialized = true :=
  open_sale_alloc_implies_record_checks_pass env0 7 0 0 [] ctx1 (fun _ => 100) 42 255
    (by rfl) (by decide) (by decide) (by decide)

/-- C10: the open operation performs no validation of the instruction payload
— its whole result, error and post-state alike, is independent of the price,
the purchase limit and the whitelist root — and when every account validator
and step passes it succeeds whatever the payload holds. -/
theorem open_sale_payload_independent
    (env : DeriveEnv) (pid : Pubkey) (p l : Nat) (r : Bytes) (p2 l2 : Nat) (r2 : Bytes)
    (ctx : OpenSaleAccounts) (minB : Nat → Nat) (pda : Pubkey) (bump : Nat) (st : Mint)
    (hrent : ctx.rent_sysvar = some minB)
    (hfind : find_token_base_pda env pid ctx.sale_authority.key ctx.mint.key =
      some (pda, bump))
    (hex : accountExists ctx.token_base = false)
    (hfund : minB TokenBase.LEN ≤ ctx.sale_authority.lamports)
    (hkey : ctx.token_base.key = pda)
    (hmint : Mint.unpack ctx.mint.data = Except.ok st)
    (hv : ctx.vault.executable = false)
    (ha : ctx.sale_authority.executable = false)
    (hs : ctx.sale_authority.is_signer = true) :
    processOpenSale env pid p l r ctx = processOpenSale env pid p2 l2 r2 ctx ∧
    (processOpenSale env pid p l r ctx).1 = none := by
  constructor
  · rfl
  · rw [processOpenSale_eq_firstFailing env pid p l r ctx minB pda bump st hrent hfind
      hex hfund hmint]
    simp [firstFailing, allocate, try_from_slice_replicate_zero, zero_is_uninitialized,
      hkey, hv, ha, hs]

/-- Witness for C10 at the concrete well-formed context with two different
payloads: identical results, and success. -/
theorem open_sale_payload_independent_witness :
    processOpenSale env0 7 1000 5 (List.replicate 32 0) ctx1 =
      processOpenSale env0 7 0 0 [] ctx1 ∧
    (processOpenSale env0 7 1000 5 (List.replicate 32 0) ctx1).1 = none :=
  open_sale_payload_independent env0 7 1000 5 (List.replicate 32 0) 0 0 [] ctx1
    (fun _ => 100) 42 255 mintStInit (by rfl) (by decide) (by decide) (by decide)
    (by decide) (by rfl) (by decide) (by decide) (by decide)

end TokenSale
